import Mathlib

/-!
Verification development for the Gmail monitoring system (`src/main.py`).

The two engines in scope are embedded shallowly:

* `EmailDataExtractor` — each `_extract_*` method of `src/main.py` becomes a
  Lean function over `String`.  The Python `re.search` calls are executed by a
  small backtracking matcher (`pmatch`/`searchL`) over an explicit pattern AST
  (`Pat`).  Every quantifier occurring in the source patterns applies to a
  single character class, so greedy class repetition with backtracking
  (`Pat.rep`) together with ordered alternation and optionality reproduces
  Python's leftmost-search semantics on these patterns exactly.
  Character classes: `\d` is modelled as the ASCII digits and `\s` as the
  common whitespace characters (ASCII whitespace, NBSP, and the ideographic
  space U+3000); the inputs in this development stay inside that range.
* `DatabaseManager.is_customer_recently_processed` /
  `record_customer_submission` — the SQLite table `customer_submissions`
  becomes a `List SubmissionRow`; `CURRENT_TIMESTAMP` / `datetime.now()`
  become an explicit `now : Int` parameter (seconds; the stored
  `'%Y-%m-%d %H:%M:%S'` strings compare lexicographically exactly as the
  underlying instants compare, and both functions are modelled against a
  single clock).  `AUTOINCREMENT` row ids are modelled by `length + 1`
  (rows are never deleted by the engine).
-/

/-! ### Character classes used by the source patterns -/

/-- Python `\d` (ASCII range). -/
def isDigitC (c : Char) : Bool := c.isDigit

/-- Python `\s`: ASCII whitespace plus NBSP and the ideographic space. -/
def isSpaceC (c : Char) : Bool :=
  c == ' ' || c == '\t' || c == '\n' || c == '\r' || c == '\x0b' || c == '\x0c' ||
  c == ' ' || c == '　'

/-- `[A-Z]`. -/
def isUpperC (c : Char) : Bool := 'A' ≤ c && c ≤ 'Z'

/-! ### Pattern AST and matcher

`re.search` semantics: try to match at position 0, 1, …; inside one position,
alternatives are tried in order and class repetitions are greedy with
backtracking.  Capturing groups record the consumed slice. -/

/-- Regex fragment.  Quantifiers (`rep`) range over character classes only,
which covers every pattern in `src/main.py`. -/
inductive Pat where
  | eps : Pat
  | cls (p : Char → Bool) : Pat
  | lit (s : List Char) : Pat
  | seq (a b : Pat) : Pat
  | alt (a b : Pat) : Pat
  | opt (a : Pat) : Pat
  | rep (p : Char → Bool) (lo : Nat) (hi : Option Nat) : Pat
  | grp (i : Nat) (a : Pat) : Pat

/-- Captured groups, most recent first. -/
def Caps := List (Nat × List Char)

/-- Length of the maximal prefix of `s` whose characters satisfy `p`. -/
def maxRun (p : Char → Bool) : List Char → Nat
  | [] => 0
  | c :: cs => if p c then maxRun p cs + 1 else 0

/-- Greedy backtracking over the number of repetitions: try dropping `n`
characters, then `n - 1`, …, making `cnt` attempts in all. -/
def repTry (k : List Char → Option α) (s : List Char) : Nat → Nat → Option α
  | _, 0 => none
  | n, cnt + 1 =>
    match k (s.drop n) with
    | some r => some r
    | none => repTry k s (n - 1) cnt

/-- Backtracking matcher in continuation style.  `k` receives the rest of the
input and the captures accumulated on the successful path. -/
def pmatch (pat : Pat) (s : List Char) (c : Caps)
    (k : List Char → Caps → Option α) : Option α :=
  match pat with
  | .eps => k s c
  | .cls p =>
    match s with
    | [] => none
    | x :: xs => if p x then k xs c else none
  | .lit l => if l.isPrefixOf s then k (s.drop l.length) c else none
  | .seq a b => pmatch a s c (fun s1 c1 => pmatch b s1 c1 k)
  | .alt a b =>
    match pmatch a s c k with
    | some r => some r
    | none => pmatch b s c k
  | .opt a =>
    match pmatch a s c k with
    | some r => some r
    | none => k s c
  | .rep p lo hi =>
    let m := maxRun p s
    let m := match hi with | some h => min m h | none => m
    if m < lo then none else repTry (fun s1 => k s1 c) s m (m - lo + 1)
  | .grp i a => pmatch a s c (fun s1 c1 => k s1 ((i, s.take (s.length - s1.length)) :: c1))

/-- Result of a successful search: the text of the whole match and the
captured groups. -/
structure MatchRes where
  txt : List Char
  caps : Caps

/-- Try to match `pat` at the head of `s` (anchored attempt). -/
def matchHere (pat : Pat) (s : List Char) : Option MatchRes :=
  pmatch pat s [] (fun s1 c => some ⟨s.take (s.length - s1.length), c⟩)

/-- `re.search`: leftmost successful attempt. -/
def searchL (pat : Pat) (s : List Char) : Option MatchRes :=
  match matchHere pat s with
  | some r => some r
  | none =>
    match s with
    | [] => none
    | _ :: xs => searchL pat xs

/-- `match.group(i)` on the recorded captures. -/
def capGet (m : MatchRes) (i : Nat) : List Char :=
  ((m.caps.find? (fun x => x.1 == i)).map (fun x => x.2)).getD []

/-- First pattern of the list that matches anywhere in `s`
(the `for pattern in patterns: re.search(...)` idiom of the source). -/
def firstSearch (pats : List Pat) (s : List Char) : Option MatchRes :=
  match pats with
  | [] => none
  | p :: rest =>
    match searchL p s with
    | some m => some m
    | none => firstSearch rest s

/-- Sequence a list of fragments. -/
def seqs (ps : List Pat) : Pat := ps.foldr .seq .eps

/-- Literal fragment from a string. -/
def lits (s : String) : Pat := .lit s.data

/-! ### Python string helpers -/

/-- `str.strip()` on a character list. -/
def pyStripL (s : List Char) : List Char :=
  ((s.dropWhile isSpaceC).reverse.dropWhile isSpaceC).reverse

/-- `re.sub(r'[\s]+', ' ', s)`: collapse whitespace runs to one space.
The flag records whether the previous character was part of a run. -/
def collapseWsAux : Bool → List Char → List Char
  | _, [] => []
  | prev, c :: cs =>
    if isSpaceC c then
      if prev then collapseWsAux true cs else ' ' :: collapseWsAux true cs
    else c :: collapseWsAux false cs

def collapseWsL (s : List Char) : List Char := collapseWsAux false s

/-- Remove every character satisfying `p` (`re.sub(class, '', s)`). -/
def removeCharsL (p : Char → Bool) (s : List Char) : List Char :=
  s.filter (fun c => !(p c))

/-- `needle in haystack` (substring test). -/
def substrInL (n : List Char) : List Char → Bool
  | [] => n.isPrefixOf []
  | c :: cs => n.isPrefixOf (c :: cs) || substrInL n cs

def substrIn (n h : String) : Bool := substrInL n.data h.data

/-- `str.zfill(2)` on digit strings. -/
def zfill2 (s : String) : String :=
  if s.length ≥ 2 then s else ⟨List.replicate (2 - s.length) '0' ++ s.data⟩

/-- `str.lower()` (ASCII case folding, which covers the inputs used here). -/
def pyLower (s : String) : String := ⟨s.data.map Char.toLower⟩

def pyStrip (s : String) : String := ⟨pyStripL s.data⟩

/-! ### Clock

`extract_data` calls `datetime.now` three times (UTC ISO timestamp, the
`%Y%m%d%H%M` stamp for synthesized inquiry ids, the `%Y-%m-%d %H:%M` default
for the inquiry datetime).  The three rendered strings of the call instant are
passed explicitly. -/

structure Now where
  utcIso : String
  ymdhm : String
  ymdHM : String
deriving DecidableEq

/-! ### EmailDataExtractor -/

namespace EmailDataExtractor

/-- `[/年]`. -/
def isYSep (c : Char) : Bool := c == '/' || c == '年'
/-- `[/月]`. -/
def isMSep (c : Char) : Bool := c == '/' || c == '月'
/-- `[\s日]`. -/
def isDaySep (c : Char) : Bool := isSpaceC c || c == '日'
/-- `[\s:：]`. -/
def isSepCol (c : Char) : Bool := isSpaceC c || c == ':' || c == '：'
/-- `[^\n\r]`. -/
def notNl (c : Char) : Bool := !(c == '\n' || c == '\r')
/-- `[^\n\r▼]`. -/
def notNlMark (c : Char) : Bool := !(c == '\n' || c == '\r' || c == '▼')
/-- `[^\n\r\s【】]` (note `\s` subsumes `\n\r`). -/
def emailChar1 (c : Char) : Bool := !(isSpaceC c || c == '【' || c == '】')
/-- `[^\n\r\s▼]`. -/
def emailChar2 (c : Char) : Bool := !(isSpaceC c || c == '▼')
/-- `[a-zA-Z0-9._%+-]`. -/
def emailLocalC (c : Char) : Bool :=
  c.isAlphanum || c == '.' || c == '_' || c == '%' || c == '+' || c == '-'
/-- `[a-zA-Z0-9.-]`. -/
def emailDomainC (c : Char) : Bool := c.isAlphanum || c == '.' || c == '-'
/-- `[0-9\-]`. -/
def phoneC (c : Char) : Bool := c.isDigit || c == '-'
/-- The bracket/marker class `[】【\[\]()（）▼]`. -/
def isBracketC (c : Char) : Bool :=
  c == '】' || c == '【' || c == '[' || c == ']' || c == '(' || c == ')' ||
  c == '（' || c == '）' || c == '▼'
/-- `[▼【】\s]`. -/
def emailStripC (c : Char) : Bool := c == '▼' || c == '【' || c == '】' || isSpaceC c
/-- `[】【\[\]()（）▼\s]`. -/
def bracketSpaceC (c : Char) : Bool := isBracketC c || isSpaceC c

/-- A label followed by `[\s:：]*` and a capture of `([^\n\r▼]+)` as group 1. -/
def labelMarkPat (label : String) : Pat :=
  seqs [lits label, .rep isSepCol 0 none, .grp 1 (.rep notNlMark 1 none)]

/-- A label followed by `\s*` and a capture of `([^\n\r▼]+)` as group 1. -/
def labelWsMarkPat (label : String) : Pat :=
  seqs [lits label, .rep isSpaceC 0 none, .grp 1 (.rep notNlMark 1 none)]

/-- A label followed by `[\s:：]*` and a capture of `([^\n\r]+)` as group 1. -/
def labelLinePat (label : String) : Pat :=
  seqs [lits label, .rep isSepCol 0 none, .grp 1 (.rep notNl 1 none)]

/-- `[A-Z]{2,4}-\d{3,6}`. -/
def inquiryNumPat : Pat :=
  seqs [.rep isUpperC 2 (some 4), lits "-", .rep isDigitC 3 (some 6)]

/-- `(\d{4})[/年](\d{1,2})[/月](\d{1,2})[\s日]*(\d{1,2}):(\d{2})`. -/
def dtPat1 : Pat :=
  seqs [.grp 1 (.rep isDigitC 4 (some 4)), .cls isYSep,
    .grp 2 (.rep isDigitC 1 (some 2)), .cls isMSep,
    .grp 3 (.rep isDigitC 1 (some 2)), .rep isDaySep 0 none,
    .grp 4 (.rep isDigitC 1 (some 2)), lits ":", .grp 5 (.rep isDigitC 2 (some 2))]

/-- `(\d{4})-(\d{2})-(\d{2})\s+(\d{2}):(\d{2})`. -/
def dtPat2 : Pat :=
  seqs [.grp 1 (.rep isDigitC 4 (some 4)), lits "-", .grp 2 (.rep isDigitC 2 (some 2)),
    lits "-", .grp 3 (.rep isDigitC 2 (some 2)), .rep isSpaceC 1 none,
    .grp 4 (.rep isDigitC 2 (some 2)), lits ":", .grp 5 (.rep isDigitC 2 (some 2))]

/-- `_extract_inquiry_number` (the `subject` argument is unused in the
source as well). -/
def extract_inquiry_number (content : String) (_subject : String) (now : Now) : String :=
  match searchL inquiryNumPat content.data with
  | some m => ⟨m.txt⟩
  | none => "INQ-" ++ now.ymdhm

/-- The five captured groups of the first matching datetime pattern. -/
def datetimeGroups (content : String) :
    Option (String × String × String × String × String) :=
  match firstSearch [dtPat1, dtPat2] content.data with
  | some m =>
    some (⟨capGet m 1⟩, ⟨capGet m 2⟩, ⟨capGet m 3⟩, ⟨capGet m 4⟩, ⟨capGet m 5⟩)
  | none => none

/-- `_extract_inquiry_datetime`: `f"{year}-{month.zfill(2)}-{day.zfill(2)} {hour}:{minute}"`
on a match (the hour is interpolated verbatim, without `zfill`), else the
current local time. -/
def extract_inquiry_datetime (content : String) (now : Now) : String :=
  match datetimeGroups content with
  | some (y, mo, d, h, mi) =>
    y ++ "-" ++ zfill2 mo ++ "-" ++ zfill2 d ++ " " ++ h ++ ":" ++ mi
  | none => now.ymdHM

/-- Shared post-processing of name-like captures: strip, drop bracket
characters, collapse whitespace, strip. -/
def cleanNameLike (s : List Char) : String :=
  ⟨pyStripL (collapseWsL (removeCharsL isBracketC (pyStripL s)))⟩

/-- `_extract_name`. -/
def extract_name (content : String) : String :=
  match firstSearch [labelWsMarkPat "▼お名前▼", labelMarkPat "お名前",
      labelMarkPat "氏名", labelMarkPat "名前"] content.data with
  | some m => cleanNameLike (capGet m 1)
  | none => ""

/-- The six email patterns of `_extract_email_address_from_content`. -/
def emailPats : List Pat :=
  [seqs [lits "【メールアドレス】", .rep isSpaceC 0 none,
     .grp 1 (seqs [.rep emailChar1 1 none, lits "@", .rep emailChar1 1 none])],
   seqs [lits "▼メールアドレス▼", .rep isSpaceC 0 none,
     .grp 1 (seqs [.rep emailChar2 1 none, lits "@", .rep emailChar2 1 none])],
   seqs [lits "メールアドレス", .rep isSepCol 0 none,
     .grp 1 (seqs [.rep emailChar2 1 none, lits "@", .rep emailChar2 1 none])],
   seqs [lits "E-mail", .rep isSepCol 0 none,
     .grp 1 (seqs [.rep emailChar2 1 none, lits "@", .rep emailChar2 1 none])],
   seqs [lits "Email", .rep isSepCol 0 none,
     .grp 1 (seqs [.rep emailChar2 1 none, lits "@", .rep emailChar2 1 none])],
   .grp 1 (seqs [.rep emailLocalC 1 none, lits "@", .rep emailDomainC 1 none,
     lits ".", .rep Char.isAlpha 2 none])]

/-- `_extract_email_address_from_content`: first matching pattern, strip,
remove `[▼【】\s]`, lower-case. -/
def extract_email_address_from_content (content : String) : String :=
  match firstSearch emailPats content.data with
  | some m => pyLower ⟨removeCharsL emailStripC (pyStripL (capGet m 1))⟩
  | none => ""

/-- `([〒]?\d{3}-?\d{4})`. -/
def postalBody : Pat :=
  .grp 1 (seqs [.opt (.cls (fun c => c == '〒')), .rep isDigitC 3 (some 3),
    .opt (.cls (fun c => c == '-')), .rep isDigitC 4 (some 4)])

/-- `(\d{3}-?\d{4})` (group of the `〒`-anchored fourth pattern). -/
def postalBodyNoMark : Pat :=
  .grp 1 (seqs [.rep isDigitC 3 (some 3), .opt (.cls (fun c => c == '-')),
    .rep isDigitC 4 (some 4)])

def postalPats : List Pat :=
  [seqs [lits "▼郵便番号▼", .rep isSpaceC 0 none, postalBody],
   seqs [lits "郵便番号", .rep isSepCol 0 none, postalBody],
   seqs [lits "【郵便番号】", .rep isSpaceC 0 none, postalBody],
   seqs [lits "〒", postalBodyNoMark]]

/-- `_extract_postal_code`: remove `〒`, remove brackets/whitespace, strip,
and hyphenate a bare 7-digit capture after the third digit. -/
def extract_postal_code (content : String) : String :=
  match firstSearch postalPats content.data with
  | some m =>
    let postal := removeCharsL (fun c => c == '〒') (capGet m 1)
    let postal := pyStripL (removeCharsL bracketSpaceC postal)
    if !(postal.contains '-') && postal.length == 7 then
      ⟨postal.take 3 ++ '-' :: postal.drop 3⟩
    else ⟨postal⟩
  | none => ""

/-- `_extract_address`. -/
def extract_address (content : String) : String :=
  match firstSearch [labelWsMarkPat "▼ご住所▼", labelMarkPat "ご住所",
      labelMarkPat "住所"] content.data with
  | some m => cleanNameLike (capGet m 1)
  | none => ""

def phonePats : List Pat :=
  [seqs [lits "【電話番号1】", .rep isSpaceC 0 none, .grp 1 (.rep phoneC 1 none)],
   seqs [lits "【電話番号】", .rep isSpaceC 0 none, .grp 1 (.rep phoneC 1 none)],
   seqs [lits "▼電話番号▼", .rep isSpaceC 0 none, .grp 1 (.rep phoneC 1 none)],
   seqs [lits "電話番号", .rep isSepCol 0 none, .grp 1 (.rep phoneC 1 none)],
   seqs [lits "【電話番号】", .rep isSepCol 0 none, .grp 1 (.rep phoneC 1 none)],
   seqs [lits "TEL", .rep isSepCol 0 none, .grp 1 (.rep phoneC 1 none)],
   seqs [lits "Tel", .rep isSepCol 0 none, .grp 1 (.rep phoneC 1 none)]]

/-- `_extract_phone_number`: strip, then remove brackets and whitespace. -/
def extract_phone_number (content : String) : String :=
  match firstSearch phonePats content.data with
  | some m => ⟨removeCharsL bracketSpaceC (pyStripL (capGet m 1))⟩
  | none => ""

/-- The ordered `trigger_map` of `_extract_trigger` (insertion order). -/
def triggerMap : List (String × String) :=
  [("HP検索", "ウェブサイト"), ("インスタグラム", "インスタグラム"),
   ("Facebook", "Facebook"), ("Google", "ウェブサイト"), ("チラシ", "チラシ"),
   ("紹介", "紹介"), ("ホームページ", "ウェブサイト"), ("ネット", "ウェブサイト"),
   ("みのおキューズモール広告", "みのおキューズモール広告")]

/-- `_extract_trigger`: label patterns first, then the keyword table in
declaration order, then the fixed default. -/
def extract_trigger (content : String) : String :=
  match firstSearch [labelWsMarkPat "▼会員登録のきっかけ▼",
      labelWsMarkPat "▼予約のきっかけ▼", labelMarkPat "予約のきっかけ",
      labelMarkPat "きっかけ", labelMarkPat "経由"] content.data with
  | some m => cleanNameLike (capGet m 1)
  | none =>
    match triggerMap.find? (fun kv => substrIn kv.1 content) with
    | some kv => kv.2
    | none => "ウェブサイト"

/-- `_extract_title`: ordered keyword-set checks against the body (verbatim),
then the lower-cased subject (the source computes `content_lower` but tests
the raw `content`). -/
def extract_title (content : String) (subject : String) : String :=
  let _content_lower := pyLower content
  let subject_lower := pyLower subject
  if (["会員登録", "バーズハウス"] ++ ["会員登録がありました"]).any
      (fun k => substrIn k content) then "[バーズハウス] 会員登録がありました"
  else if ["来場予約", "来場希望", "見学予約", "見学希望", "イベント参加",
      "イベント申込"].any (fun k => substrIn k content) then
    "[桧家住宅] イベントの参加お申し込みがありました"
  else if ["会員情報変更", "情報変更", "会員情報更新"].any
      (fun k => substrIn k content) then "[桧家住宅] 会員情報の変更がありました"
  else if ["退会", "会員退会", "退会しました"].any (fun k => substrIn k content) then
    "[桧家住宅] 会員の退会がありました"
  else if ["分譲住宅", "物件", "住宅", "問い合わせ", "問合せ"].any
      (fun k => substrIn k content) then
    "[桧家住宅] 分譲住宅へのお問い合わせがありました"
  else if ["資料請求", "資料希望", "カタログ請求"].any (fun k => substrIn k content) then
    "[桧家住宅] 資料請求がありました"
  else if ["お問い合わせフォーム", "コンタクト", "フォーム"].any
      (fun k => substrIn k content) then
    "[桧家住宅] お問い合わせフォームからの連絡がありました"
  else if ["イベント", "event", "参加", "申込", "申し込み"].any
      (fun k => substrIn k subject_lower) then
    "[桧家住宅] イベントの参加お申し込みがありました"
  else if ["問い合わせ", "問合せ", "inquiry", "contact"].any
      (fun k => substrIn k subject_lower) then "[桧家住宅] お問い合わせがありました"
  else "[桧家住宅] お問い合わせがありました"

/-- `https?://[^\s\n\r]+`. -/
def urlPat : Pat :=
  seqs [lits "http", .opt (lits "s"), lits "://", .rep (fun c => !(isSpaceC c)) 1 none]

/-- `_extract_url`. -/
def extract_url (content : String) : String :=
  match searchL urlPat content.data with
  | some m => ⟨m.txt⟩
  | none => "https://example.com/123"

/-- The three time-preference label patterns (shared by
`_extract_preferred_time` and `_extract_visit_time`). -/
def prefTimePats : List Pat :=
  [labelLinePat "ご希望時間", labelLinePat "希望時間", labelLinePat "時間"]

/-- The stripped group-1 capture of the first matching label pattern
(`time_text = match.group(1).strip()`). -/
def prefTimeCapture (content : String) : Option String :=
  match firstSearch prefTimePats content.data with
  | some m => some (pyStrip ⟨capGet m 1⟩)
  | none => none

/-- Marker lists of the labelled branch of `_extract_preferred_time`. -/
def morningMarksLabel : List String := ["9:", "10:", "11:", "午前", "AM"]
def afternoonMarksLabel : List String :=
  ["12:", "13:", "14:", "15:", "16:", "17:", "18:", "午後", "PM"]

/-- Marker lists of the no-label branch of `_extract_preferred_time`. -/
def morningMarksBody : List String := ["午前", "AM", "9:", "10:", "11:"]
def afternoonMarksBody : List String := ["午後", "PM", "13:", "14:", "15:", "16:"]

/-- `_extract_preferred_time`. -/
def extract_preferred_time (content : String) : String :=
  match prefTimeCapture content with
  | some time_text =>
    if morningMarksLabel.any (fun x => substrIn x time_text) then "午前"
    else if afternoonMarksLabel.any (fun x => substrIn x time_text) then "午後"
    else time_text
  | none =>
    if morningMarksBody.any (fun x => substrIn x content) then "午前"
    else if afternoonMarksBody.any (fun x => substrIn x content) then "午後"
    else "午後"

/-- `_extract_furigana`. -/
def extract_furigana (content : String) : String :=
  match firstSearch [labelWsMarkPat "▼フリガナ▼", labelMarkPat "フリガナ",
      labelMarkPat "ふりがな", labelMarkPat "カナ"] content.data with
  | some m => cleanNameLike (capGet m 1)
  | none => ""

/-- The three date sub-patterns of `_extract_visit_date`. -/
def visitDateSubPats : List Pat :=
  [seqs [.grp 1 (.rep isDigitC 4 (some 4)), lits "年", .grp 2 (.rep isDigitC 1 (some 2)),
     lits "月", .grp 3 (.rep isDigitC 1 (some 2)), lits "日"],
   seqs [.grp 1 (.rep isDigitC 4 (some 4)), .cls isYSep, .grp 2 (.rep isDigitC 1 (some 2)),
     .cls isMSep, .grp 3 (.rep isDigitC 1 (some 2)), .opt (lits "日")],
   seqs [.grp 1 (.rep isDigitC 4 (some 4)), lits "-", .grp 2 (.rep isDigitC 1 (some 2)),
     lits "-", .grp 3 (.rep isDigitC 1 (some 2))]]

/-- `_extract_visit_date`: label patterns, bracket removal, then the date
sub-patterns; an unmatched sub-pattern returns the cleaned text verbatim. -/
def extract_visit_date (content : String) : String :=
  match firstSearch [labelLinePat "来場希望日", labelLinePat "ご希望日",
      labelLinePat "希望日", labelLinePat "第1希望"] content.data with
  | some m =>
    let date_text := removeCharsL isBracketC (pyStripL (capGet m 1))
    match firstSearch visitDateSubPats date_text with
    | some dm => ⟨capGet dm 1⟩ ++ "-" ++ zfill2 ⟨capGet dm 2⟩ ++ "-" ++ zfill2 ⟨capGet dm 3⟩
    | none => ⟨date_text⟩
  | none => ""

/-- The three time sub-patterns of `_extract_visit_time`
(`(\d{1,2}):(\d{2})(?:～|〜|-|から)?(?:\d{1,2}:\d{2})?`, `(\d{1,2})時(\d{2})分`,
`(\d{1,2})[:：時](\d{2})`). -/
def visitTimeSubPats : List Pat :=
  [seqs [.grp 1 (.rep isDigitC 1 (some 2)), lits ":", .grp 2 (.rep isDigitC 2 (some 2)),
     .opt (.alt (lits "～") (.alt (lits "〜") (.alt (lits "-") (lits "から")))),
     .opt (seqs [.rep isDigitC 1 (some 2), lits ":", .rep isDigitC 2 (some 2)])],
   seqs [.grp 1 (.rep isDigitC 1 (some 2)), lits "時", .grp 2 (.rep isDigitC 2 (some 2)),
     lits "分"],
   seqs [.grp 1 (.rep isDigitC 1 (some 2)),
     .cls (fun c => c == ':' || c == '：' || c == '時'), .grp 2 (.rep isDigitC 2 (some 2))]]

/-- `_extract_visit_time`. -/
def extract_visit_time (content : String) : String :=
  match firstSearch prefTimePats content.data with
  | some m =>
    let time_text := removeCharsL isBracketC (pyStripL (capGet m 1))
    match firstSearch visitTimeSubPats time_text with
    | some tm => zfill2 ⟨capGet tm 1⟩ ++ ":" ++ zfill2 ⟨capGet tm 2⟩
    | none => ⟨time_text⟩
  | none => ""

/-- `extract_data`: the returned dict, as an association list in the key
order of the source literal. -/
def extract_data (email_content sender_email subject message_id : String)
    (now : Now) : List (String × String) :=
  let customer_email := extract_email_address_from_content email_content
  [("sender_email", sender_email),
   ("subject", subject),
   ("timestamp", now.utcIso),
   ("問合せ番号", extract_inquiry_number email_content subject now),
   ("問合せ日時", extract_inquiry_datetime email_content now),
   ("名前", extract_name email_content),
   ("郵便番号", extract_postal_code email_content),
   ("住所", extract_address email_content),
   ("電話番号", extract_phone_number email_content),
   ("電話番号_2", ""),
   ("きっかけ", extract_trigger email_content),
   ("件名", subject),
   ("タイトル", extract_title email_content subject),
   ("URL", extract_url email_content),
   ("希望時間", extract_preferred_time email_content),
   ("ふりがな", extract_furigana email_content),
   ("message_id", message_id),
   ("顧客メール", customer_email),
   ("来場希望日", extract_visit_date email_content),
   ("希望訪問時間", extract_visit_time email_content)]

end EmailDataExtractor

/-! ### DatabaseManager: `customer_submissions` and deduplication -/

namespace DatabaseManager

/-- One row of the `customer_submissions` table. -/
structure SubmissionRow where
  rid : Nat
  customer_email : String
  submission_type : String
  email_subject : String
  first_submission_at : Int
  last_submission_at : Int
  submission_count : Int
  first_message_id : String
  last_message_id : String
deriving DecidableEq, Repr

/-- The `previous_submission` dict returned in the duplicate branch. -/
structure PreviousSubmission where
  customer_email : String
  submission_type : String
  email_subject : String
  first_submission_at : Int
  last_submission_at : Int
  submission_count : Int
  first_message_id : String
deriving DecidableEq, Repr

/-- The dict returned by `is_customer_recently_processed`. -/
structure DedupResult where
  is_duplicate : Bool
  previous_submission : Option PreviousSubmission
deriving DecidableEq, Repr

/-- `_normalize_subject`: strip, lower-case, collapse whitespace runs. -/
def normalize_subject (subject : String) : String :=
  if subject = "" then ""
  else ⟨collapseWsL (pyLower (pyStrip subject)).data⟩

/-- `ORDER BY last_submission_at DESC LIMIT 1` over the filtered rows. -/
def bestByLast (rs : List SubmissionRow) : Option SubmissionRow :=
  rs.foldl (fun acc r =>
    match acc with
    | none => some r
    | some b => if b.last_submission_at < r.last_submission_at then some r else some b) none

/-- `is_customer_recently_processed(customer_email, submission_type,
email_subject, window_hours)`; `now` is the instant of the internal
`datetime.now()` call and `db` the current table. -/
def is_customer_recently_processed (customer_email submission_type email_subject : String)
    (window_hours : Int) (now : Int) (db : List SubmissionRow) : DedupResult :=
  if customer_email = "" then ⟨false, none⟩
  else
    let submission_type := if submission_type = "" then "unknown" else submission_type
    let _normalized_subject := normalize_subject email_subject
    let threshold := now - window_hours * 3600
    match bestByLast (db.filter (fun r =>
        r.customer_email == customer_email && r.submission_type == submission_type &&
        threshold < r.last_submission_at)) with
    | some r =>
      ⟨true, some ⟨r.customer_email, r.submission_type, r.email_subject,
        r.first_submission_at, r.last_submission_at, r.submission_count,
        r.first_message_id⟩⟩
    | none => ⟨false, none⟩

/-- `record_customer_submission(customer_email, submission_type,
email_subject, message_id)`: the returned table.  `now` is the instant of the
`CURRENT_TIMESTAMP` defaults/assignments. -/
def record_customer_submission (customer_email submission_type email_subject
    message_id : String) (now : Int) (db : List SubmissionRow) : List SubmissionRow :=
  if customer_email = "" then db
  else
    let submission_type := if submission_type = "" then "unknown" else submission_type
    match db.find? (fun r =>
        r.customer_email == customer_email && r.submission_type == submission_type) with
    | some _ =>
      db.map (fun r =>
        if r.customer_email == customer_email && r.submission_type == submission_type then
          { r with last_submission_at := now, submission_count := r.submission_count + 1,
                   last_message_id := message_id, email_subject := email_subject }
        else r)
    | none =>
      db ++ [{ rid := db.length + 1, customer_email := customer_email,
               submission_type := submission_type, email_subject := email_subject,
               first_submission_at := now, last_submission_at := now,
               submission_count := 1, first_message_id := message_id,
               last_message_id := message_id }]

/-- The empty-type substitution both functions perform before comparison and
storage. -/
def dedupKey (t : String) : String := if t = "" then "unknown" else t

end DatabaseManager

/-! ### Helper lemmas -/

theorem lookup_cons_eq {β : Type} (a k : String) (b : β) (es : List (String × β)) :
    List.lookup a ((k, b) :: es) = if a == k then some b else List.lookup a es := by
  cases h : a == k <;> simp [List.lookup, h]

/-! ### Claims about the deduplication engine -/

open DatabaseManager

/-- C5.  Unidentifiable-originator rule: with an empty customer email the
verdict is not-duplicate with no prior record, for every submission type,
subject, window, instant and store state. -/
theorem C5_empty_email_never_duplicate (submission_type email_subject : String)
    (window_hours now : Int) (db : List SubmissionRow) :
    is_customer_recently_processed "" submission_type email_subject window_hours now db
      = ⟨false, none⟩ := rfl

/-- C9.  The duplicate verdict (and the returned prior record) do not depend
on the `email_subject` argument: the subject is normalized internally but the
normalized value never reaches the query. -/
theorem C9_verdict_independent_of_subject (customer_email submission_type : String)
    (s1 s2 : String) (window_hours now : Int) (db : List SubmissionRow) :
    is_customer_recently_processed customer_email submission_type s1 window_hours now db
      = is_customer_recently_processed customer_email submission_type s2 window_hours now db := rfl

/-! ### Claims about the field extractor -/

open EmailDataExtractor

/-- The §3 ExtractedRecord fields, as the keys of the returned dict:
inquiry_id, inquiry_datetime, full_name, postal_code, postal_address,
phone_primary, phone_secondary, trigger_source, raw_subject, display_title,
reference_url, time_preference, phonetic_name, source_message_id,
originator_email, visit_date, visit_time, captured_at. -/
def schemaKeys : List String :=
  ["問合せ番号", "問合せ日時", "名前", "郵便番号", "住所", "電話番号", "電話番号_2",
   "きっかけ", "件名", "タイトル", "URL", "希望時間", "ふりがな", "message_id",
   "顧客メール", "来場希望日", "希望訪問時間", "timestamp"]

/-- C3.  For every input, the map returned by `extract_data` contains a value
for every field of the §3 ExtractedRecord schema — no key is absent. -/
theorem C3_all_schema_fields_present (body sender subject mid : String) (now : Now)
    (k : String) (hk : k ∈ schemaKeys) :
    (List.lookup k (extract_data body sender subject mid now)).isSome = true := by
  simp only [schemaKeys, List.mem_cons, List.not_mem_nil, or_false] at hk
  rcases hk with rfl | rfl | rfl | rfl | rfl | rfl | rfl | rfl | rfl | rfl | rfl | rfl |
    rfl | rfl | rfl | rfl | rfl | rfl <;> rfl

/-- Witness for C3 at a concrete key and input. -/
theorem C3_all_schema_fields_present_witness :
    (List.lookup "問合せ番号"
      (extract_data "body" "s@x.jp" "subj" "m1" ⟨"I", "Y", "D"⟩)).isSome = true :=
  C3_all_schema_fields_present "body" "s@x.jp" "subj" "m1" ⟨"I", "Y", "D"⟩
    "問合せ番号" (by simp [schemaKeys])

/-- C10.  The secondary phone field `電話番号_2` of the returned record is the
empty string for every input. -/
theorem C10_secondary_phone_always_empty (body sender subject mid : String) (now : Now) :
    List.lookup "電話番号_2" (extract_data body sender subject mid now) = some "" := rfl

namespace DatabaseManager

/-- A check against the empty table is never a duplicate. -/
theorem check_nil (e u s : String) (w now : Int) :
    is_customer_recently_processed e u s w now [] = ⟨false, none⟩ := by
  by_cases he : e = "" <;> simp [is_customer_recently_processed, he, bestByLast]

/-- Recording into the empty table inserts one row keyed by the verbatim
type (after the empty-type → `"unknown"` substitution). -/
theorem record_empty (e t s m : String) (now : Int) (he : e ≠ "") :
    record_customer_submission e t s m now []
      = [⟨1, e, dedupKey t, s, now, now, 1, m, m⟩] := by
  simp [record_customer_submission, dedupKey, he, List.find?]

/-- Recording over the row of the same identity updates it in place. -/
theorem record_single_update (e t s s2 m m2 : String) (now0 now1 : Int) (cnt : Int)
    (he : e ≠ "") :
    record_customer_submission e t s2 m2 now1
        [⟨1, e, dedupKey t, s, now0, now0, cnt, m, m⟩]
      = [⟨1, e, dedupKey t, s2, now0, now1, cnt + 1, m, m2⟩] := by
  simp [record_customer_submission, dedupKey, he, List.find?]

/-- The verdict against a single-row table: exact equality of the stored and
queried keys, and freshness of `last_submission_at`. -/
theorem check_single_dup (e u s subj mf ml t : String) (w now first last cnt : Int)
    (he : e ≠ "") :
    (is_customer_recently_processed e u s w now
        [⟨1, e, dedupKey t, subj, first, last, cnt, mf, ml⟩]).is_duplicate
      = ((dedupKey t == dedupKey u) && decide (now - w * 3600 < last)) := by
  simp only [is_customer_recently_processed, dedupKey, if_neg he, List.filter_cons,
    List.filter_nil, beq_self_eq_true, Bool.true_and]
  cases hq : ((if t = "" then "unknown" else t) == (if u = "" then "unknown" else u)) <;>
    cases hd : decide (now - w * 3600 < last) <;>
      simp [bestByLast, hq, hd]

end DatabaseManager

/-- C1 counterexample.  The claim says the dedup key is the normalized
(trimmed, whitespace-collapsed, lower-cased) type, so two sightings whose
types differ only in case would compare as the same identity.  On the code,
after recording type `"Event Entry"` the lookup with `"event entry"` (inside
the window) is *not* flagged duplicate, while the verbatim type is. -/
theorem C1_counterexample :
    (is_customer_recently_processed "a@b.com" "event entry" "s" 24 3600
      (record_customer_submission "a@b.com" "Event Entry" "s" "m1" 0 [])).is_duplicate
        = false ∧
    (is_customer_recently_processed "a@b.com" "Event Entry" "s" 24 3600
      (record_customer_submission "a@b.com" "Event Entry" "s" "m1" 0 [])).is_duplicate
        = true := by decide

/-- C1 amended.  The deduplication key used for both the lookup and the
stored row is the submission type **verbatim**: the only transformation is the
substitution of the literal `"unknown"` for an empty type (`dedupKey`); no
trimming, whitespace-collapsing, or lower-casing is applied (the subject is
normalized internally but the result is unused).  Hence, after recording one
sighting of type `t`, a lookup inside the window with type `u` is a duplicate
exactly when `dedupKey u` and `dedupKey t` are equal as strings. -/
theorem C1_amended_verbatim_type_key (e t u s1 s2 m : String) (w now0 now1 : Int)
    (he : e ≠ "") (hw : now1 - w * 3600 < now0) :
    (is_customer_recently_processed e u s2 w now1
        (record_customer_submission e t s1 m now0 [])).is_duplicate
      = (dedupKey t == dedupKey u) := by
  rw [DatabaseManager.record_empty e t s1 m now0 he,
    DatabaseManager.check_single_dup e u s2 s1 m m t w now1 now0 now0 1 he]
  simp [hw]

/-- Witness for C1 amended: equal keys inside the window give a duplicate. -/
theorem C1_amended_verbatim_type_key_witness :
    (is_customer_recently_processed "a@b.com" "T" "s" 24 3600
        (record_customer_submission "a@b.com" "T" "s" "m1" 0 [])).is_duplicate
      = (dedupKey "T" == dedupKey "T") :=
  C1_amended_verbatim_type_key "a@b.com" "T" "T" "s" "s" "m1" 24 0 3600
    (by decide) (by decide)

/-- C2 counterexample.  Identity `("a@b.com", "T")`, window `W = 1` hour
(3600 s): sightings at `t0 = 0` and `t1 = 1800` are recorded; the claim says
the third sighting at `t2 = t0 + W + ε = 3601` gets verdict not-duplicate,
but the code checks against the **last** sighting `t1` (`3601 - 3600 < 1800`)
and returns duplicate. -/
theorem C2_counterexample :
    (is_customer_recently_processed "a@b.com" "T" "s" 1 3601
      (record_customer_submission "a@b.com" "T" "s" "m2" 1800
        (record_customer_submission "a@b.com" "T" "s" "m1" 0 []))).is_duplicate
      = true := by decide

/-- C2 amended.  For a fixed identity with each sighting recorded: the first
sighting (empty store) is not-duplicate; a second sighting at
`t0 < t1 < t0 + W` is a duplicate; and a third sighting at `t2 > t1` is a
duplicate **iff** `t2 - t1 < W` — the window slides from the most recent
sighting `t1`, so `t2 = t0 + W + ε` is still a duplicate whenever
`t2 - t1 < W`. -/
theorem C2_amended_sliding_window (e t s m1 m2 : String) (w t0 t1 t2 : Int)
    (he : e ≠ "") (h01 : t0 < t1) (hin : t1 < t0 + w * 3600) (h12 : t1 < t2) :
    (is_customer_recently_processed e t s w t0 []).is_duplicate = false
    ∧ (is_customer_recently_processed e t s w t1
        (record_customer_submission e t s m1 t0 [])).is_duplicate = true
    ∧ ((is_customer_recently_processed e t s w t2
        (record_customer_submission e t s m2 t1
          (record_customer_submission e t s m1 t0 []))).is_duplicate = true
        ↔ t2 - t1 < w * 3600) := by
  rw [DatabaseManager.record_empty e t s m1 t0 he,
    DatabaseManager.record_single_update e t s s m1 m2 t0 t1 1 he,
    DatabaseManager.check_nil,
    DatabaseManager.check_single_dup e t s s m1 m1 t w t1 t0 t0 1 he,
    DatabaseManager.check_single_dup e t s s m1 m2 t w t2 t0 t1 (1 + 1) he]
  refine ⟨rfl, ?_, ?_⟩
  · simp only [beq_self_eq_true, Bool.true_and, decide_eq_true_eq]
    omega
  · simp only [beq_self_eq_true, Bool.true_and, decide_eq_true_eq]
    omega

/-- Witness for C2 amended at `t0 = 0`, `t1 = 1800`, `t2 = 3601`, `W = 1` h. -/
theorem C2_amended_sliding_window_witness :
    (is_customer_recently_processed "a@b.com" "T" "s" 1 0 []).is_duplicate = false
    ∧ (is_customer_recently_processed "a@b.com" "T" "s" 1 1800
        (record_customer_submission "a@b.com" "T" "s" "m1" 0 [])).is_duplicate = true
    ∧ ((is_customer_recently_processed "a@b.com" "T" "s" 1 3601
        (record_customer_submission "a@b.com" "T" "s" "m2" 1800
          (record_customer_submission "a@b.com" "T" "s" "m1" 0 []))).is_duplicate = true
        ↔ (3601 : Int) - 1800 < 1 * 3600) :=
  C2_amended_sliding_window "a@b.com" "T" "s" "m1" "m2" 1 0 1800 3601
    (by decide) (by decide) (by decide) (by decide)

namespace DatabaseManager

/-- Row-wise frame relation of one `record_customer_submission` call: key
fields, `first_submission_at` and `first_message_id` are always preserved;
rows of the addressed identity get exactly the four documented updates; every
other row is untouched. -/
def frameRel (e t s m : String) (now : Int) (r r2 : SubmissionRow) : Prop :=
  r2.rid = r.rid ∧ r2.customer_email = r.customer_email ∧
  r2.submission_type = r.submission_type ∧
  r2.first_submission_at = r.first_submission_at ∧
  r2.first_message_id = r.first_message_id ∧
  (if r.customer_email = e ∧ r.submission_type = dedupKey t then
    r2.last_submission_at = now ∧ r2.submission_count = r.submission_count + 1 ∧
    r2.last_message_id = m ∧ r2.email_subject = s
   else r2 = r)

end DatabaseManager

/-- C6.  When a row for the identity already exists, `record_customer_submission`
updates only `last_submission_at` (to now), `submission_count` (+1),
`last_message_id` and `email_subject` on the identity's rows;
`first_submission_at`, `first_message_id` and the key fields are unchanged on
every row, and rows of other identities are untouched. -/
theorem C6_update_frame (db : List SubmissionRow) (e t s m : String) (now : Int)
    (he : e ≠ "")
    (hex : ∃ r ∈ db, r.customer_email = e ∧ r.submission_type = dedupKey t) :
    List.Forall₂ (frameRel e t s m now) db
      (record_customer_submission e t s m now db) := by
  unfold record_customer_submission
  rw [if_neg he]
  have hfind : (db.find? (fun r => r.customer_email == e &&
      r.submission_type == (if t = "" then "unknown" else t))).isSome = true := by
    rw [List.find?_isSome]
    obtain ⟨r, hr, h1, h2⟩ := hex
    refine ⟨r, hr, ?_⟩
    simp only [dedupKey] at h2
    simp [h1, h2]
  obtain ⟨x, hx⟩ := Option.isSome_iff_exists.mp hfind
  simp only [hx]
  rw [List.forall₂_map_right_iff, List.forall₂_same]
  intro r hr
  by_cases hc : r.customer_email = e ∧ r.submission_type = dedupKey t
  · have hb : (r.customer_email == e &&
        r.submission_type == (if t = "" then "unknown" else t)) = true := by
      simp only [dedupKey] at hc
      simp [hc.1, hc.2]
    simp [frameRel, hc, hb, dedupKey]
  · have hb : (r.customer_email == e &&
        r.submission_type == (if t = "" then "unknown" else t)) = false := by
      simp only [dedupKey] at hc
      rcases not_and_or.mp hc with h | h <;> simp [h]
    simp [frameRel, hc, hb]

/-- Witness for C6 on a one-row table of the addressed identity. -/
theorem C6_update_frame_witness :
    List.Forall₂ (frameRel "a@b.com" "T" "s2" "m2" 5)
      [⟨1, "a@b.com", "T", "s", 0, 0, 1, "m1", "m1"⟩]
      (record_customer_submission "a@b.com" "T" "s2" "m2" 5
        [⟨1, "a@b.com", "T", "s", 0, 0, 1, "m1", "m1"⟩]) :=
  C6_update_frame [⟨1, "a@b.com", "T", "s", 0, 0, 1, "m1", "m1"⟩]
    "a@b.com" "T" "s2" "m2" 5 (by decide)
    ⟨⟨1, "a@b.com", "T", "s", 0, 0, 1, "m1", "m1"⟩, by decide, by decide, by decide⟩

/-- C4 counterexample.  The claim says every field other than the two
documented time-dependent defaults — *including the captured-at timestamp* —
agrees between two runs on identical input.  But `timestamp` is
`datetime.now(timezone.utc).isoformat()` at each call: two runs at different
instants disagree on it. -/
theorem C4_counterexample :
    List.lookup "timestamp" (extract_data "" "s" "j" "m"
        ⟨"2025-01-01T00:00:00+00:00", "202501010000", "2025-01-01 00:00"⟩)
      ≠ List.lookup "timestamp" (extract_data "" "s" "j" "m"
        ⟨"2025-01-01T00:00:01+00:00", "202501010000", "2025-01-01 00:00"⟩) := by decide

set_option maxRecDepth 10000 in
/-- C4 amended.  Two runs of `extract_data` on identical input agree on every
field except the **three** time-dependent ones: `timestamp` (captured-at),
`問合せ番号` (inquiry ID) and `問合せ日時` (inquiry datetime); moreover the
latter two also agree whenever their pattern matches the body (the
time-dependence is only in their defaults, while `timestamp` always carries
the call instant). -/
theorem C4_amended_three_time_fields (body sender subject mid : String) (n1 n2 : Now) :
    (∀ k, k ≠ "timestamp" → k ≠ "問合せ番号" → k ≠ "問合せ日時" →
      List.lookup k (extract_data body sender subject mid n1)
        = List.lookup k (extract_data body sender subject mid n2))
    ∧ ((searchL inquiryNumPat body.data).isSome = true →
      List.lookup "問合せ番号" (extract_data body sender subject mid n1)
        = List.lookup "問合せ番号" (extract_data body sender subject mid n2))
    ∧ ((datetimeGroups body).isSome = true →
      List.lookup "問合せ日時" (extract_data body sender subject mid n1)
        = List.lookup "問合せ日時" (extract_data body sender subject mid n2)) := by
  refine ⟨?_, ?_, ?_⟩
  · intro k h1 h2 h3
    have e1 : (k == "timestamp") = false := beq_eq_false_iff_ne.mpr h1
    have e2 : (k == "問合せ番号") = false := beq_eq_false_iff_ne.mpr h2
    have e3 : (k == "問合せ日時") = false := beq_eq_false_iff_ne.mpr h3
    simp only [extract_data, lookup_cons_eq, e1, e2, e3, Bool.false_eq_true, if_false]
  · intro h
    obtain ⟨v, hv⟩ := Option.isSome_iff_exists.mp h
    show some (extract_inquiry_number body subject n1)
      = some (extract_inquiry_number body subject n2)
    simp [extract_inquiry_number, hv]
  · intro h
    obtain ⟨v, hv⟩ := Option.isSome_iff_exists.mp h
    show some (extract_inquiry_datetime body n1) = some (extract_inquiry_datetime body n2)
    obtain ⟨y, mo, d, hh, mi⟩ := v
    simp [extract_inquiry_datetime, hv]

/-- Witness for C4 amended: a body containing both an explicit inquiry ID and
an explicit datetime, compared across two distinct instants. -/
theorem C4_amended_three_time_fields_witness :
    (List.lookup "名前" (extract_data "AB-123 2025/1/2 3:45" "s" "j" "m" ⟨"I1", "Y1", "D1"⟩)
      = List.lookup "名前" (extract_data "AB-123 2025/1/2 3:45" "s" "j" "m" ⟨"I2", "Y2", "D2"⟩))
    ∧ (List.lookup "問合せ番号" (extract_data "AB-123 2025/1/2 3:45" "s" "j" "m" ⟨"I1", "Y1", "D1"⟩)
      = List.lookup "問合せ番号" (extract_data "AB-123 2025/1/2 3:45" "s" "j" "m" ⟨"I2", "Y2", "D2"⟩))
    ∧ (List.lookup "問合せ日時" (extract_data "AB-123 2025/1/2 3:45" "s" "j" "m" ⟨"I1", "Y1", "D1"⟩)
      = List.lookup "問合せ日時" (extract_data "AB-123 2025/1/2 3:45" "s" "j" "m" ⟨"I2", "Y2", "D2"⟩)) :=
  ⟨(C4_amended_three_time_fields "AB-123 2025/1/2 3:45" "s" "j" "m"
      ⟨"I1", "Y1", "D1"⟩ ⟨"I2", "Y2", "D2"⟩).1 "名前" (by decide) (by decide) (by decide),
   (C4_amended_three_time_fields "AB-123 2025/1/2 3:45" "s" "j" "m"
      ⟨"I1", "Y1", "D1"⟩ ⟨"I2", "Y2", "D2"⟩).2.1 (by decide),
   (C4_amended_three_time_fields "AB-123 2025/1/2 3:45" "s" "j" "m"
      ⟨"I1", "Y1", "D1"⟩ ⟨"I2", "Y2", "D2"⟩).2.2 (by decide)⟩

/-- `zfill(2)` pads a string of at most two characters to exactly two. -/
theorem zfill2_length (s : String) (h : s.length ≤ 2) : (zfill2 s).length = 2 := by
  unfold zfill2
  by_cases h2 : s.length ≥ 2
  · rw [if_pos h2]; omega
  · rw [if_neg h2]
    have hlen : (String.mk (List.replicate (2 - s.length) '0' ++ s.data)).length
        = (2 - s.length) + s.data.length := by
      show (List.replicate (2 - s.length) '0' ++ s.data).length = _
      rw [List.length_append, List.length_replicate]
    rw [hlen]
    have hd : s.data.length = s.length := rfl
    rw [hd]
    omega

/-- C7 counterexample.  Body `"2025/9/28 9:30"` matches the first datetime
layout; the claim says the hour is zero-padded to 2 digits (`"09:30"`), but
the code interpolates the captured hour verbatim and yields
`"2025-09-28 9:30"`. -/
theorem C7_counterexample :
    extract_inquiry_datetime "2025/9/28 9:30" ⟨"I", "Y", "2025-10-12 00:00"⟩
        = "2025-09-28 9:30"
    ∧ ("2025-09-28 9:30" : String) ≠ "2025-09-28 09:30" := by decide

/-- C7 amended.  When one of the two layouts matches, the output is
`year-month-day hour:minute` with month and day zero-padded to 2 digits and
the hour and minute interpolated **as captured** (the hour is not padded; the
minute is two digits by its pattern); when neither matches, the field is the
current local time rendering, hence non-empty whenever that rendering is. -/
theorem C7_amended_month_day_padded (content : String) (now : Now) :
    (∀ y mo d h mi, datetimeGroups content = some (y, mo, d, h, mi) →
      extract_inquiry_datetime content now
          = y ++ "-" ++ zfill2 mo ++ "-" ++ zfill2 d ++ " " ++ h ++ ":" ++ mi
        ∧ (mo.length ≤ 2 → (zfill2 mo).length = 2)
        ∧ (d.length ≤ 2 → (zfill2 d).length = 2))
    ∧ (datetimeGroups content = none →
      extract_inquiry_datetime content now = now.ymdHM
        ∧ (now.ymdHM ≠ "" → extract_inquiry_datetime content now ≠ "")) := by
  constructor
  · intro y mo d h mi hm
    refine ⟨?_, fun hh => zfill2_length mo hh, fun hh => zfill2_length d hh⟩
    unfold extract_inquiry_datetime
    rw [hm]
  · intro hn
    have he : extract_inquiry_datetime content now = now.ymdHM := by
      unfold extract_inquiry_datetime
      rw [hn]
    exact ⟨he, fun hne => he ▸ hne⟩

/-- Witness for C7 amended: the matching and the defaulting branch, each at a
concrete body. -/
theorem C7_amended_month_day_padded_witness :
    (extract_inquiry_datetime "2025/9/28 9:30" ⟨"I", "Y", "D"⟩
        = "2025" ++ "-" ++ zfill2 "9" ++ "-" ++ zfill2 "28" ++ " " ++ "9" ++ ":" ++ "30")
    ∧ extract_inquiry_datetime "no date here" ⟨"I", "Y", "D"⟩
        = Now.ymdHM ⟨"I", "Y", "D"⟩ :=
  ⟨((C7_amended_month_day_padded "2025/9/28 9:30" ⟨"I", "Y", "D"⟩).1
      "2025" "9" "28" "9" "30" (by decide)).1,
   ((C7_amended_month_day_padded "no date here" ⟨"I", "Y", "D"⟩).2 (by decide)).1⟩

/-- C8 counterexample.  Body `"AM"` matches no time-preference label pattern,
so by the claim the result should be the afternoon bucket; the code scans the
whole body for morning markers first and returns the morning bucket. -/
theorem C8_counterexample :
    extract_preferred_time "AM" = "午前" ∧ ("午前" : String) ≠ "午後" := by decide

/-- C8 amended.  With a label match the captured text is bucketed: morning if
it contains a morning marker, else afternoon if it contains an afternoon
marker, else returned verbatim.  With no label match the whole body is
scanned: morning bucket if it contains a morning marker, otherwise the
afternoon bucket (the explicit afternoon scan and the final default
coincide). -/
theorem C8_amended_nolabel_body_scan (content : String) :
    (∀ t, prefTimeCapture content = some t →
      extract_preferred_time content
        = (if morningMarksLabel.any (fun x => substrIn x t) then "午前"
           else if afternoonMarksLabel.any (fun x => substrIn x t) then "午後" else t))
    ∧ (prefTimeCapture content = none →
      extract_preferred_time content
        = (if morningMarksBody.any (fun x => substrIn x content) then "午前" else "午後")) := by
  constructor
  · intro t ht
    unfold extract_preferred_time
    rw [ht]
  · intro hn
    unfold extract_preferred_time
    rw [hn]
    by_cases h1 : morningMarksBody.any (fun x => substrIn x content) = true
    · simp [h1]
    · by_cases h2 : afternoonMarksBody.any (fun x => substrIn x content) = true <;>
        simp [h1, h2]

/-- Witness for C8 amended: a labelled morning capture and an unlabelled
body. -/
theorem C8_amended_nolabel_body_scan_witness :
    (extract_preferred_time "希望時間: 10:00"
      = (if morningMarksLabel.any (fun x => substrIn x "10:00") then "午前"
         else if afternoonMarksLabel.any (fun x => substrIn x "10:00") then "午後"
         else "10:00"))
    ∧ (extract_preferred_time "hello"
      = (if morningMarksBody.any (fun x => substrIn x "hello") then "午前" else "午後")) :=
  ⟨(C8_amended_nolabel_body_scan "希望時間: 10:00").1 "10:00" (by decide),
   (C8_amended_nolabel_body_scan "hello").2 (by decide)⟩
